import Mathlib

/-!
Verification development for the `snipslistener` MQTT dialogue-dispatch
library (`src/snipslistener.py`).  The Python source is shallowly embedded:

* Python dicts used as maps (`_suspended_sessions`, `_session_managers`,
  `_intent_handlers`, JSON objects) become association lists;
* JSON values (the result of `json.loads`) become the inductive `Jv`;
  a payload that is not valid JSON is modelled as `none`;
* exceptions become an `Option PyErr` field in each handler's result
  (mutations performed before a raise persist, as in Python);
* Python generator objects become `GenObj`, a step function from a resume
  input to an outcome (yield a turn with a continuation / return a final
  value / raise);
* application handler code (opaque to the engine) is quantified over:
  a plain intent handler yields a list of session-manager actions and an
  optional raised error, hotword and session-ended handlers yield direct
  publishes plus an optional raised error.
-/

set_option autoImplicit false

namespace SnipsListener

/-! ### Association lists (Python `dict`) -/
variable {κ : Type} {α : Type}

/-- Lookup in an association list; models `d.get(k)` / `k in d` / `d[k]`. -/
def lookupA [DecidableEq κ] : List (κ × α) → κ → Option α
  | [], _ => none
  | (k, v) :: rest, k' => if k' = k then some v else lookupA rest k'

/-- Insert-or-update; models `d[k] = v` (updates in place, else appends). -/
def insertA [DecidableEq κ] : List (κ × α) → κ → α → List (κ × α)
  | [], k, v => [(k, v)]
  | (k0, v0) :: rest, k, v =>
    if k = k0 then (k0, v) :: rest else (k0, v0) :: insertA rest k v

/-- Remove a key if present; models `del d[k]` guarded by `k in d`. -/
def eraseA [DecidableEq κ] : List (κ × α) → κ → List (κ × α)
  | [], _ => []
  | (k0, v0) :: rest, k =>
    if k = k0 then rest else (k0, v0) :: eraseA rest k

/-! ### Python errors and JSON values -/
/-- Python exceptions that the embedded code can raise or propagate. -/
inductive PyErr : Type where
  /-- `json.JSONDecodeError` from `json.loads` on a malformed payload. -/
  | jsonDecode
  /-- `KeyError` from indexing a dict with a missing key. -/
  | keyError (k : String)
  /-- `TypeError` (wrong shape: indexing a non-dict, `len` of an unsized
  value, the `TypeError` thrown into a misbehaving generator, ...). -/
  | typeError
  /-- `ValueError` (e.g. unpacking a topic split of the wrong arity). -/
  | valueError
  /-- `StopIteration` escaping a generator interaction. -/
  | stopIteration
  /-- An arbitrary exception raised by application handler code. -/
  | exc (msg : String)
deriving DecidableEq, Repr

/-- JSON values, the result of a successful `json.loads`.  Numbers keep
their source text (they are only passed through opaquely or, for slot
ranges, read as integers). -/
inductive Jv : Type where
  | null
  | bool (b : Bool)
  | num (n : Int)
  | str (s : String)
  | arr (elems : List Jv)
  | obj (fields : List (String × Jv))

/-- Dict indexing `j[k]`: `KeyError` when the key is absent, `TypeError`
when the value is not an object. -/
def Jv.item : Jv → String → Except PyErr Jv
  | .obj fields, k =>
    match lookupA fields k with
    | some v => .ok v
    | none => .error (.keyError k)
  | _, _ => .error .typeError

/-- Dict `j.get(k)`; only reached on values already known to be objects. -/
def Jv.get : Jv → String → Option Jv
  | .obj fields, k => lookupA fields k
  | _, _ => none

/-- Read a JSON value as a string (`TypeError` otherwise); used where the
Python code requires string behaviour (splitting, slicing, dict keys). -/
def Jv.asStr : Jv → Except PyErr String
  | .str s => .ok s
  | _ => .error .typeError

/-- Read a JSON value as an integer, as needed for slot ranges. -/
def Jv.asInt : Jv → Except PyErr Int
  | .num n => .ok n
  | _ => .error .typeError

/-- Key membership in a JSON object. -/
def Jv.hasKey : Jv → String → Bool
  | .obj fields, k => (lookupA fields k).isSome
  | _, _ => false

/-- An outbound MQTT publish: `client.publish(topic, payload=json.dumps(p))`. -/
structure Pub : Type where
  topic : String
  payload : Jv

/-! ### SessionManager (`src/snipslistener.py` lines 42-95) -/
/-- State of a `SessionManager` object (the Session Action Gateway). -/
structure SMState : Type where
  session_id : String
  site_id : String
  ended : Bool
deriving DecidableEq, Repr

/-- Python truthiness of an optional list (`if intent_filters:`). -/
def truthyList (l : Option (List String)) : Bool :=
  match l with
  | none => false
  | some [] => false
  | some (_ :: _) => true

/-- Python truthiness of an optional string (`if text:` / `if exc.value:`). -/
def truthyStr (s : Option String) : Bool :=
  match s with
  | none => false
  | some t => !(t = "")

/-- Model of `SessionManager.continue_session` (lines 50-64): drop with a logged
error when ended, else publish `{sessionId, text, intentFilter?}`, the
`intentFilter` key present only when the filter list is truthy. -/
def SMState.continue_session (sm : SMState) (text : String)
    (intent_filters : Option (List String)) : SMState × List Pub :=
  if sm.ended then (sm, [])
  else
    (sm, [⟨"hermes/dialogueManager/continueSession",
      .obj ([("sessionId", .str sm.session_id), ("text", .str text)] ++
        (if truthyList intent_filters then
          [("intentFilter", .arr ((intent_filters.getD []).map .str))]
        else []))⟩])

/-- Model of `SessionManager.say` (lines 66-79): drop when ended, else publish
`{sessionId, siteId, text}` to the TTS topic. -/
def SMState.say (sm : SMState) (text : String) : SMState × List Pub :=
  if sm.ended then (sm, [])
  else
    (sm, [⟨"hermes/tts/say",
      .obj [("sessionId", .str sm.session_id), ("siteId", .str sm.site_id),
            ("text", .str text)]⟩])

/-- Model of `SessionManager.end_session` (lines 81-95): drop when ended, else
publish `{sessionId, text?}` (text only when truthy) and set `ended`. -/
def SMState.end_session (sm : SMState) (text : Option String) : SMState × List Pub :=
  if sm.ended then (sm, [])
  else
    ({ sm with ended := true },
     [⟨"hermes/dialogueManager/endSession",
      .obj ([("sessionId", .str sm.session_id)] ++
        (if truthyStr text then [("text", .str (text.getD ""))] else []))⟩])

/-! ### Typed events (lines 98-105) -/
/-- The `HotwordDetected` namedtuple; `model_id`/`site_id` carry the raw JSON
values, as the Python code performs no type check on them. -/
structure HotwordDetected : Type where
  hotword_id : String
  model_id : Jv
  site_id : Jv

/-- The `Range` namedtuple for a slot's character range. -/
structure SlotRange : Type where
  start : Int
  stop : Int

/-- The `Slot` namedtuple (line 102); `text` is derived by slicing the input. -/
structure Slot : Type where
  slot_name : String
  raw_value : Jv
  value : Jv
  value_kind : Jv
  range : SlotRange
  entity : Jv
  text : String

/-- The `IntentDetected` namedtuple (lines 99-101).  The `session_manager`
field is represented implicitly: the engine threads the manager through
the listener state, and model handlers act on it via `SMAction`s. -/
structure IntentDetected : Type where
  session_id : String
  site_id : String
  custom_data : Option Jv
  input : String
  intent_name : String
  probability : Jv
  slots : List (String × Slot)

/-- The `SessionEnded` namedtuple (line 104). -/
structure SessionEnded : Type where
  session_id : String
  site_id : Jv
  custom_data : Option Jv
  reason : Jv
  error : Option Jv

/-! ### Generator model -/
/-- The value a handler generator produces at a `yield`.  A string or a
pair `(text, intent_filters)` is a valid turn; `invalidSized` stands for
any other sized value (its `len` is ≠ 2; a 2-element sequence is always
modelled as `pair`), `invalidUnsized` for a value whose `len()` raises
`TypeError`. -/
inductive Turn : Type where
  | text (s : String)
  | pair (t : String) (fs : List String)
  | invalidSized
  | invalidUnsized
deriving DecidableEq, Repr

/-- Inputs delivered to a generator object: the initial `next(gen)`, a
`gen.send(intent_obj)`, a `gen.send(ended_msg)`, or the `TypeError`
thrown into it by the engine on a protocol violation. -/
inductive GenInput : Type where
  | start
  | intentE (i : IntentDetected)
  | sessionEndE (e : SessionEnded)
  | throwTypeError

mutual
/-- A Python generator object at a suspension point: its single step
function consumes a resume input and produces an outcome. -/
inductive GenObj : Type where
  | mk (stepFn : GenInput → GenOutcome)

/-- Outcome of advancing a generator: it yields a turn and suspends as a
new `GenObj`, finishes (`StopIteration` carrying the return value), or
raises. -/
inductive GenOutcome : Type where
  | yields (turn : Turn) (k : GenObj)
  | stops (value : Option String)
  | raises (e : PyErr)
end

/-- Advance a generator object with an input. -/
def GenObj.step : GenObj → GenInput → GenOutcome
  | .mk f, i => f i

/-- A generator that has already finished (or died from an uncaught
exception): further `send`/`next` raise `StopIteration`, a `throw`
re-raises the thrown exception. -/
def exhaustedGen : GenObj :=
  .mk (fun i =>
    match i with
    | .throwTypeError => .raises .typeError
    | _ => .stops none)

/-! ### Handler model -/
/-- An action application handler code performs on its session manager. -/
inductive SMAction : Type where
  | contSess (text : String) (filters : Option (List String))
  | sayText (text : String)
  | endSess (text : Option String)

/-- A registered intent handler: either a plain method (modelled by the
session-manager actions it performs and an optional raised exception) or
a generator function (`inspect.isgeneratorfunction`). -/
inductive IntentHandler : Type where
  | plain (run : IntentDetected → List SMAction × Option PyErr)
  | genFn (mkGen : IntentDetected → GenObj)

/-- A hotword handler: publishes directly and may raise. -/
def HotwordHandler : Type := HotwordDetected → List Pub × Option PyErr

/-- A session-ended handler: publishes directly (cf. `FallbackHandler`)
and may raise. -/
def SEHandler : Type := SessionEnded → List Pub × Option PyErr

/-- State of a `SnipsListener` object.  `session_ended_handlers` holds
the contents of the Python `set` in its (arbitrary) iteration order. -/
structure ListenerState : Type where
  intent_handlers : List ((String × Option String) × List IntentHandler)
  hotword_handlers : List HotwordHandler
  session_ended_handlers : List SEHandler
  suspended : List (String × GenObj)
  managers : List (String × SMState)

/-- Result of one inbound-message callback: the final listener state, the
publishes issued, and the exception that escaped the callback, if any
(Python mutations performed before a raise persist). -/
structure HRes : Type where
  st : ListenerState
  pubs : List Pub
  err : Option PyErr

/-! ### Inbound messages and decoding -/
/-- An inbound MQTT message.  `payload = none` models a byte payload that
is not valid JSON (so that `json.loads` raises). -/
structure Msg : Type where
  topic : String
  payload : Option Jv

/-- Python slicing `s[a:b]` for integer indices: negative indices count
from the end, then both are clamped to `[0, len(s)]`. -/
def pySlice (s : String) (a b : Int) : String :=
  let cs := s.data
  let n : Int := cs.length
  let norm : Int → Nat := fun i => (max 0 (min n (if i < 0 then n + i else i))).toNat
  ⟨(cs.drop (norm a)).take (norm b - norm a)⟩

/-- Helper for `pySplitColon`, walking the characters of the name. -/
def splitColonAux : List Char → List Char → String × Option String
  | [], acc => (⟨acc.reverse⟩, none)
  | c :: rest, acc =>
    if c = ':' then (⟨acc.reverse⟩, some ⟨rest⟩)
    else splitColonAux rest (c :: acc)

/-- Python `name.split(':', 1)` (line 181): the part before the first
colon, and (when a colon occurs) the remainder after it. -/
def pySplitColon (s : String) : String × Option String :=
  splitColonAux s.data []

/-- Intent-handler lookup (lines 181-193): split the name on the first
colon into `(namespace?, suffix)`, look up the exact key, and when that
fails for a namespaced name retry with no namespace. -/
def intentLookup (reg : List ((String × Option String) × List IntentHandler))
    (name : String) : Option (List IntentHandler) :=
  match pySplitColon name with
  | (n, none) => lookupA reg (n, none)
  | (ns, some n) =>
    match lookupA reg (n, some ns) with
    | some hs => some hs
    | none => lookupA reg (n, none)

/-- Fields of an intent message read eagerly, before any dispatch
decision (lines 165-171; note line 171 logs `data['slots']`, so a missing
`slots` key raises there). -/
structure IntentTop : Type where
  data : Jv
  intent_data : Jv
  session_id : String
  site_id : String

/-- The eager decode prefix of `_handle_intent` (lines 165-171). -/
def decodeIntentTop (msg : Msg) : Except PyErr IntentTop := do
  let data ← match msg.payload with
    | none => Except.error PyErr.jsonDecode
    | some j => Except.ok j
  let intent_data ← data.item "intent"
  let session_id ← (← data.item "sessionId").asStr
  let site_id ← (← data.item "siteId").asStr
  let _ ← data.item "slots"
  pure ⟨data, intent_data, session_id, site_id⟩

/-- The registry lookup step of `_handle_intent` for a new session; the
access to `intent_data['intentName']` (line 181) can raise. -/
def lookupHandlersE (reg : List ((String × Option String) × List IntentHandler))
    (intent_data : Jv) : Except PyErr (Option (List IntentHandler)) := do
  let name ← (← intent_data.item "intentName").asStr
  pure (intentLookup reg name)

/-- Decode one slot (lines 210-218), in source evaluation order; the
derived `text` field slices the input over the slot's range. -/
def decodeSlot (input : String) (s : Jv) : Except PyErr (String × Slot) := do
  let slot_name ← (← s.item "slotName").asStr
  let raw_value ← s.item "rawValue"
  let valObj ← s.item "value"
  let value ← valObj.item "value"
  let value_kind ← valObj.item "kind"
  let rangeObj ← s.item "range"
  let rstart ← (← rangeObj.item "start").asInt
  let rend ← (← rangeObj.item "end").asInt
  let entity ← s.item "entity"
  pure (slot_name, ⟨slot_name, raw_value, value, value_kind, ⟨rstart, rend⟩,
    entity, pySlice input rstart rend⟩)

/-- Decode the slot list into the slot mapping (the dict comprehension of
lines 209-220; on duplicate slot names the later entry wins). -/
def decodeSlots (input : String) :
    List Jv → List (String × Slot) → Except PyErr (List (String × Slot))
  | [], acc => .ok acc
  | s :: rest, acc => do
    let kv ← decodeSlot input s
    decodeSlots input rest (insertA acc kv.1 kv.2)

/-- Construct the `IntentDetected` object (lines 202-222), in source
evaluation order.  `data.get('slots', [])` defaults to the empty list; a
non-array value there fails the iteration with a `TypeError`. -/
def decodeIntentObj (d : IntentTop) : Except PyErr IntentDetected := do
  let custom_data := d.data.get "customData"
  let input ← (← d.data.item "input").asStr
  let intent_name ← (← d.intent_data.item "intentName").asStr
  let probability ← d.intent_data.item "probability"
  let slotsL ← match (d.data.get "slots").getD (.arr []) with
    | .arr l => Except.ok l
    | _ => Except.error PyErr.typeError
  let slots ← decodeSlots input slotsL []
  pure ⟨d.session_id, d.site_id, custom_data, input, intent_name, probability, slots⟩

/-! ### Dispatch engine -/
/-- Lines 197-201: reuse the stored session manager or create one for
this session id from the message's site id. -/
def ensureManager (st : ListenerState) (sid site : String) : ListenerState :=
  match lookupA st.managers sid with
  | some _ => st
  | none => { st with managers := insertA st.managers sid ⟨sid, site, false⟩ }

/-- Run a session-manager method on the shared manager object for `sid`
(shared mutable state, modelled by reading and writing the managers map;
the engine only calls this after `ensureManager`, so the `none` branch is
unreachable in engine flows). -/
def applySMOp (st : ListenerState) (sid : String)
    (op : SMState → SMState × List Pub) : ListenerState × List Pub :=
  match lookupA st.managers sid with
  | none => (st, [])
  | some sm =>
    let r := op sm
    ({ st with managers := insertA st.managers sid r.1 }, r.2)

/-- Replace the suspended entry for `sid` only when one is present: a
Python generator advances in place, so the object already stored in
`_suspended_sessions` is the advanced one even without a reassignment. -/
def touchSuspended (st : ListenerState) (sid : String) (g : GenObj) : ListenerState :=
  match lookupA st.suspended sid with
  | some _ => { st with suspended := insertA st.suspended sid g }
  | none => st

/-- Model of `SnipsListener._do_generator_turn` (lines 243-266).  `input` is
`.start` for `next(gen_obj)` and `.intentE intent_obj` for
`gen_obj.send(intent_obj)`.  The `except StopIteration` branch removes
any retained suspension and ends the session with the truthy return
value; a valid yielded turn retains the continuation and continues the
session; an invalid turn has `TypeError` thrown into the generator, and
whatever that raises (including the `StopIteration` of a finishing
generator) propagates out uncaught. -/
def doGeneratorTurn (st : ListenerState) (gen : GenObj) (sid : String)
    (input : GenInput) : HRes :=
  match gen.step input with
  | .stops v =>
    let st1 := { st with suspended := eraseA st.suspended sid }
    let r := applySMOp st1 sid
      (fun sm => sm.end_session (if truthyStr v then v else none))
    ⟨r.1, r.2, none⟩
  | .raises e => ⟨touchSuspended st sid exhaustedGen, [], some e⟩
  | .yields turn k =>
    match turn with
    | .text s =>
      let st1 := { st with suspended := insertA st.suspended sid k }
      let r := applySMOp st1 sid (fun sm => sm.continue_session s none)
      ⟨r.1, r.2, none⟩
    | .pair t fs =>
      let st1 := { st with suspended := insertA st.suspended sid k }
      let r := applySMOp st1 sid (fun sm => sm.continue_session t (some fs))
      ⟨r.1, r.2, none⟩
    | .invalidUnsized => ⟨touchSuspended st sid k, [], some .typeError⟩
    | .invalidSized =>
      match k.step .throwTypeError with
      | .yields _ k2 => ⟨touchSuspended st sid k2, [], none⟩
      | .stops _ => ⟨touchSuspended st sid exhaustedGen, [], some .stopIteration⟩
      | .raises e => ⟨touchSuspended st sid exhaustedGen, [], some e⟩

/-- Dispatch one session-manager action to the corresponding method. -/
def smAct (sm : SMState) : SMAction → SMState × List Pub
  | .contSess t f => sm.continue_session t f
  | .sayText t => sm.say t
  | .endSess t => sm.end_session t

/-- Perform the session-manager actions of a plain handler, in order. -/
def runActs (sid : String) : ListenerState → List SMAction → ListenerState × List Pub
  | st, [] => (st, [])
  | st, a :: rest =>
    let r1 := applySMOp st sid (fun sm => smAct sm a)
    let r2 := runActs sid r1.1 rest
    (r2.1, r1.2 ++ r2.2)

/-- The new-session handler loop (lines 231-241): each handler runs under
`try/except Exception`, so a raised error (the `Option PyErr` of a plain
handler, or the `err` of a generator turn) is logged and swallowed. -/
def runIntentHandlers (sid : String) (iobj : IntentDetected) :
    ListenerState → List IntentHandler → ListenerState × List Pub
  | st, [] => (st, [])
  | st, h :: rest =>
    let r1 : ListenerState × List Pub :=
      match h with
      | .plain f => runActs sid st (f iobj).1
      | .genFn g =>
        let r := doGeneratorTurn st (g iobj) sid .start
        (r.st, r.pubs)
    let r2 := runIntentHandlers sid iobj r1.1 rest
    (r2.1, r1.2 ++ r2.2)

/-- Model of `SnipsListener._handle_intent` (lines 163-241).  Decode errors
propagate out (no enclosing try).  A suspended session is resumed by
sending the event into the retained generator — the registry is not
consulted — and any error raised there propagates, since the resume-path
call to `_do_generator_turn` (line 228) is outside any try.  A new
session resolves handlers (with namespace fallback) and runs each under
its own try. -/
def handleIntent (st : ListenerState) (msg : Msg) : HRes :=
  match decodeIntentTop msg with
  | .error e => ⟨st, [], some e⟩
  | .ok d =>
    match lookupA st.suspended d.session_id with
    | some gen =>
      let st1 := ensureManager st d.session_id d.site_id
      match decodeIntentObj d with
      | .error e => ⟨st1, [], some e⟩
      | .ok iobj => doGeneratorTurn st1 gen d.session_id (.intentE iobj)
    | none =>
      match lookupHandlersE st.intent_handlers d.intent_data with
      | .error e => ⟨st, [], some e⟩
      | .ok none => ⟨st, [], none⟩
      | .ok (some hs) =>
        let st1 := ensureManager st d.session_id d.site_id
        match decodeIntentObj d with
        | .error e => ⟨st1, [], some e⟩
        | .ok iobj =>
          let r := runIntentHandlers d.session_id iobj st1 hs
          ⟨r.1, r.2, none⟩

/-- The hotword handler loop (lines 273-277): the event is constructed
inside the per-handler try, so a missing `modelId`/`siteId` field is
caught (and logged) for each handler in turn, as is any error the
handler raises. -/
def runHotwordHandlers (hid : String) (data : Jv) :
    List HotwordHandler → List Pub
  | [] => []
  | h :: rest =>
    let p1 : List Pub :=
      match data.item "modelId", data.item "siteId" with
      | .ok m, .ok s => (h ⟨hid, m, s⟩).1
      | _, _ => []
    p1 ++ runHotwordHandlers hid data rest

/-- Helper for `pySplitSlash`, walking the characters of the topic. -/
def splitSlashAux : List Char → List Char → List String
  | [], acc => [⟨acc.reverse⟩]
  | c :: rest, acc =>
    if c = '/' then ⟨acc.reverse⟩ :: splitSlashAux rest []
    else splitSlashAux rest (c :: acc)

/-- Python `topic.split('/')` (line 271). -/
def pySplitSlash (s : String) : List String :=
  splitSlashAux s.data []

/-- Model of `SnipsListener._handle_hotword_detected` (lines 268-277).  The topic
unpack `_, _, hotword_id, _ = topic.split('/')` (line 271) raises
`ValueError` unless the topic has exactly four segments; `json.loads`
(line 272) raises on a malformed payload; both are outside any try. -/
def handleHotword (st : ListenerState) (msg : Msg) : HRes :=
  match pySplitSlash msg.topic with
  | [_, _, hid, _] =>
    match msg.payload with
    | none => ⟨st, [], some .jsonDecode⟩
    | some data => ⟨st, runHotwordHandlers hid data st.hotword_handlers, none⟩
  | _ => ⟨st, [], some .valueError⟩

/-- The decode prefix of `_handle_session_ended` (lines 282-288), in
source evaluation order. -/
def decodeSessionEnded (msg : Msg) : Except PyErr SessionEnded := do
  let data ← match msg.payload with
    | none => Except.error PyErr.jsonDecode
    | some j => Except.ok j
  let termination ← data.item "termination"
  let session_id ← (← data.item "sessionId").asStr
  let site_id ← data.item "siteId"
  let reason ← termination.item "reason"
  pure ⟨session_id, site_id, data.get "customData", reason, termination.get "error"⟩

/-- The session-ended handler loop (lines 298-302), iterating the stored
set in its iteration order; each handler's raised error is caught and
logged separately. -/
def runSEHandlers (ev : SessionEnded) : List SEHandler → List Pub
  | [] => []
  | h :: rest => (h ev).1 ++ runSEHandlers ev rest

/-- Model of `SnipsListener._handle_session_ended` (lines 279-304).  Decode errors
propagate.  A retained suspension receives the event via `send` — every
outcome, including a raised error, is caught and discarded — and is then
removed.  All session-ended handlers run regardless, then the manager
entry for the session id is dropped if present. -/
def handleSessionEnded (st : ListenerState) (msg : Msg) : HRes :=
  match decodeSessionEnded msg with
  | .error e => ⟨st, [], some e⟩
  | .ok ev =>
    let st1 := match lookupA st.suspended ev.session_id with
      | some g =>
        let _ := g.step (.sessionEndE ev)
        { st with suspended := eraseA st.suspended ev.session_id }
      | none => st
    let pubs := runSEHandlers ev st.session_ended_handlers
    let st2 := { st1 with managers := eraseA st1.managers ev.session_id }
    ⟨st2, pubs, none⟩

/-! ### Canonical well-formed messages -/
/-- A well-formed intent message with the given field values and an empty
slot list. -/
def mkIntentMsg (sid site name input : String) : Msg :=
  ⟨"hermes/intent/" ++ name,
   some (.obj [("sessionId", .str sid), ("siteId", .str site),
     ("input", .str input),
     ("intent", .obj [("intentName", .str name), ("probability", .num 1)]),
     ("slots", .arr [])])⟩

/-- The `IntentDetected` object decoded from `mkIntentMsg`. -/
def mkIntentObj (sid site name input : String) : IntentDetected :=
  ⟨sid, site, none, input, name, .num 1, []⟩

/-- A well-formed session-ended message with the given field values. -/
def mkSEMsg (sid site reason : String) : Msg :=
  ⟨"hermes/dialogueManager/sessionEnded",
   some (.obj [("sessionId", .str sid), ("siteId", .str site),
     ("termination", .obj [("reason", .str reason)])])⟩

/-- The `SessionEnded` event decoded from `mkSEMsg`. -/
def mkSEEv (sid site reason : String) : SessionEnded :=
  ⟨sid, .str site, none, .str reason, none⟩

/-! ### Sanity checks mirroring `src/tests/test_listener.py` -/
/-- The multi-turn generator handler of the test skill: yields
"Reply to user 1", then the filtered pair, then returns the final text. -/
def multiTurnGen : IntentDetected → GenObj :=
  fun _ => .mk (fun _ => .yields (.text "Reply to user 1")
    (.mk (fun _ => .yields (.pair "Reply to user 2"
        ["intent_filter_1", "intent_filter_2"])
      (.mk (fun _ => .stops (some "final text to user"))))))

/-- The single-turn plain handler of the test skill: ends the session
with a final reply. -/
def singleTurn : IntentDetected → List SMAction × Option PyErr :=
  fun _ => ([.endSess (some "Single and final reply to user")], none)

/-- Registry and initial state of the example test skill. -/
def exampleSkill : ListenerState :=
  ⟨[(("multiturn", none), [.genFn multiTurnGen]),
    (("singleturn", none), [.plain singleTurn])], [], [], [], []⟩

/-- Intent message used by the multi-turn test. -/
def multiMsg : Msg := mkIntentMsg "aaaa-bbbb-cccc" "default" "multiturn" "foo bar baz"

/-! ### C9: invocation order of session-ended handlers -/
/-- Python `set` semantics: iterating a set yields its elements in some
arbitrary, implementation-defined order — any permutation of the inserted
elements is a legitimate iteration order, and insertion (registration)
order is not preserved. -/
def ValidSetOrder {α : Type} (inserted iter : List α) : Prop :=
  iter.Perm inserted

/-- A session-end handler publishing a single marker message. -/
def seMark (t : String) : SEHandler := fun _ => ([⟨t, .null⟩], none)

/-! ### C2: generator completion -/
/-- A suspended generator that completes with final text "bye" as soon as
it is resumed. -/
def finishingGen : GenObj := .mk (fun _ => .stops (some "bye"))

/-- Listener state with one suspended session and its manager entry. -/
def c2state : ListenerState :=
  ⟨[], [], [], [("s", finishingGen)], [("s", ⟨"s", "site", false⟩)]⟩

/-! ### C4: which resumable handler owns the session -/
/-- Continuation of handler A after its first yield. -/
def contA : GenObj := .mk (fun _ => .yields (.text "A2") (.mk (fun _ => .stops none)))

/-- Continuation of handler B after its first yield. -/
def contB : GenObj := .mk (fun _ => .yields (.text "B2") (.mk (fun _ => .stops none)))

/-- Resumable handler A: first step yields "A1" and suspends as `contA`. -/
def genFnA : IntentDetected → GenObj :=
  fun _ => .mk (fun _ => .yields (.text "A1") contA)

/-- Resumable handler B: first step yields "B1" and suspends as `contB`. -/
def genFnB : IntentDetected → GenObj :=
  fun _ => .mk (fun _ => .yields (.text "B1") contB)

/-- State with two resumable handlers registered, in order, for `multi`. -/
def c4state : ListenerState :=
  ⟨[(("multi", none), [.genFn genFnA, .genFn genFnB])], [], [], [], []⟩

/-- The continuation retained from a generator-step outcome when it is a
yield of a valid turn value. -/
def yieldCont : GenOutcome → Option GenObj
  | .yields (.text _) k => some k
  | .yields (.pair _ _) k => some k
  | _ => none

/-- The continuation a generator-function handler retains when its first
step yields a valid turn value. -/
def startCont (g : IntentDetected → GenObj) (iobj : IntentDetected) : Option GenObj :=
  yieldCont ((g iobj).step .start)

/-- The last generator-function handler in a handler list, if any. -/
def lastGenFn : List IntentHandler → Option (IntentDetected → GenObj)
  | [] => none
  | h :: rest =>
    match lastGenFn rest with
    | some g => some g
    | none =>
      match h with
      | .genFn g => some g
      | .plain _ => none

/-! ### C6: handler errors on invocation vs. resumption -/
/-- A suspended generator that raises as soon as it is resumed. -/
def raisingGen : GenObj := .mk (fun _ => .raises (.exc "boom"))

/-- Listener state with a raising suspended generator and its manager. -/
def c6state : ListenerState :=
  ⟨[], [], [], [("s", raisingGen)], [("s", ⟨"s", "site", false⟩)]⟩

@[simp] theorem lookupA_nil [DecidableEq κ] (k : κ) :
    lookupA ([] : List (κ × α)) k = none := rfl

@[simp] theorem lookupA_cons [DecidableEq κ] (k0 : κ) (v0 : α) (rest : List (κ × α)) (k : κ) :
    lookupA ((k0, v0) :: rest) k = if k = k0 then some v0 else lookupA rest k := rfl

theorem lookupA_insertA_self [DecidableEq κ] (l : List (κ × α)) (k : κ) (v : α) :
    lookupA (insertA l k v) k = some v := by
  induction l with
  | nil => simp [insertA, lookupA]
  | cons hd tl ih =>
    obtain ⟨k0, v0⟩ := hd
    by_cases h : k = k0 <;> simp [insertA, lookupA, h, ih]

theorem lookupA_insertA_ne [DecidableEq κ] (l : List (κ × α)) (k k' : κ) (v : α)
    (h : k' ≠ k) : lookupA (insertA l k v) k' = lookupA l k' := by
  induction l with
  | nil => simp [insertA, lookupA, h]
  | cons hd tl ih =>
    obtain ⟨k0, v0⟩ := hd
    by_cases h0 : k = k0
    · subst h0; simp [insertA, lookupA, h]
    · by_cases h1 : k' = k0 <;> simp [insertA, lookupA, h0, h1, ih]

theorem lookupA_none_of_not_mem [DecidableEq κ] (l : List (κ × α)) (k : κ)
    (h : k ∉ l.map Prod.fst) : lookupA l k = none := by
  induction l with
  | nil => rfl
  | cons hd tl ih =>
    obtain ⟨k0, v0⟩ := hd
    simp only [List.map_cons, List.mem_cons, not_or] at h
    simp [lookupA, h.1, ih h.2]

theorem lookupA_eraseA_self [DecidableEq κ] (l : List (κ × α)) (k : κ)
    (hnd : (l.map Prod.fst).Nodup) : lookupA (eraseA l k) k = none := by
  induction l with
  | nil => rfl
  | cons hd tl ih =>
    obtain ⟨k0, v0⟩ := hd
    simp only [List.map_cons, List.nodup_cons] at hnd
    by_cases h : k = k0
    · subst h
      simp only [eraseA, if_pos rfl]
      exact lookupA_none_of_not_mem tl k hnd.1
    · simp [eraseA, h, lookupA, ih hnd.2]

theorem eraseA_of_lookupA_none [DecidableEq κ] (l : List (κ × α)) (k : κ)
    (h : lookupA l k = none) : eraseA l k = l := by
  induction l with
  | nil => rfl
  | cons hd tl ih =>
    obtain ⟨k0, v0⟩ := hd
    simp only [lookupA_cons] at h
    by_cases hk : k = k0
    · simp [hk] at h
    · simp only [if_neg hk] at h
      simp [eraseA, hk, ih h]

theorem lookupA_eraseA_ne [DecidableEq κ] (l : List (κ × α)) (k k' : κ)
    (h : k' ≠ k) : lookupA (eraseA l k) k' = lookupA l k' := by
  induction l with
  | nil => rfl
  | cons hd tl ih =>
    obtain ⟨k0, v0⟩ := hd
    by_cases h0 : k = k0
    · subst h0; simp [eraseA, lookupA, h]
    · by_cases h1 : k' = k0 <;> simp [eraseA, lookupA, h0, h1, ih]

theorem decodeIntentTop_mk (sid site name input : String) :
    decodeIntentTop (mkIntentMsg sid site name input) =
    .ok ⟨(mkIntentMsg sid site name input).payload.getD .null,
         .obj [("intentName", .str name), ("probability", .num 1)], sid, site⟩ := rfl

theorem decodeIntentObj_mk (sid site name input : String) :
    decodeIntentObj ⟨(mkIntentMsg sid site name input).payload.getD .null,
      .obj [("intentName", .str name), ("probability", .num 1)], sid, site⟩ =
    .ok (mkIntentObj sid site name input) := rfl

theorem decodeSessionEnded_mk (sid site reason : String) :
    decodeSessionEnded (mkSEMsg sid site reason) = .ok (mkSEEv sid site reason) := rfl

/-- Sanity: first multi-turn step, as asserted by `test_multiturn_generator`:
one continue-session publish without filters, one suspension, one manager. -/
theorem sanity_multiturn_step1 :
    (handleIntent exampleSkill multiMsg).pubs =
      [⟨"hermes/dialogueManager/continueSession",
        .obj [("sessionId", .str "aaaa-bbbb-cccc"), ("text", .str "Reply to user 1")]⟩] ∧
    (handleIntent exampleSkill multiMsg).st.suspended.length = 1 ∧
    (handleIntent exampleSkill multiMsg).st.managers.length = 1 ∧
    (handleIntent exampleSkill multiMsg).err = none :=
  ⟨rfl, rfl, rfl, rfl⟩

/-- Sanity: second multi-turn step publishes the filtered continue, third
step publishes the final end-session text, leaving no suspension but one
manager entry, exactly as `test_multiturn_generator` asserts. -/
theorem sanity_multiturn_steps23 :
    let r1 := handleIntent exampleSkill multiMsg
    let r2 := handleIntent r1.st multiMsg
    let r3 := handleIntent r2.st multiMsg
    r2.pubs = [⟨"hermes/dialogueManager/continueSession",
        .obj [("sessionId", .str "aaaa-bbbb-cccc"), ("text", .str "Reply to user 2"),
          ("intentFilter", .arr [.str "intent_filter_1", .str "intent_filter_2"])]⟩] ∧
    r3.pubs = [⟨"hermes/dialogueManager/endSession",
        .obj [("sessionId", .str "aaaa-bbbb-cccc"), ("text", .str "final text to user")]⟩] ∧
    r3.st.suspended.length = 0 ∧ r3.st.managers.length = 1 :=
  ⟨rfl, rfl, rfl, rfl⟩

/-- Sanity: the session-ended message of the tests clears both maps. -/
theorem sanity_session_ended_clears :
    let r1 := handleIntent exampleSkill multiMsg
    let r4 := handleSessionEnded r1.st (mkSEMsg "aaaa-bbbb-cccc" "default" "abortedByUser")
    r4.st.suspended.length = 0 ∧ r4.st.managers.length = 0 ∧ r4.err = none :=
  ⟨rfl, rfl, rfl⟩

/-- Sanity: the single-turn plain handler publishes the end-session text
directly, as `test_single_turn` asserts. -/
theorem sanity_single_turn :
    (handleIntent exampleSkill
      (mkIntentMsg "aaaa-bbbb-cccc" "default" "singleturn" "foo bar baz")).pubs =
      [⟨"hermes/dialogueManager/endSession",
        .obj [("sessionId", .str "aaaa-bbbb-cccc"),
          ("text", .str "Single and final reply to user")]⟩] :=
  rfl

/-! ### Split lemmas for the namespace lookup -/
theorem splitColonAux_no_colon :
    ∀ (l acc : List Char), ':' ∉ l →
      splitColonAux l acc = (⟨acc.reverse ++ l⟩, none)
  | [], acc, _ => by simp [splitColonAux]
  | c :: rest, acc, h => by
    simp only [List.mem_cons, not_or] at h
    rw [splitColonAux, if_neg (fun hc => h.1 hc.symm),
      splitColonAux_no_colon rest (c :: acc) h.2]
    simp

theorem splitColonAux_colon :
    ∀ (l1 : List Char) (l2 acc : List Char), ':' ∉ l1 →
      splitColonAux (l1 ++ ':' :: l2) acc = (⟨acc.reverse ++ l1⟩, some ⟨l2⟩)
  | [], l2, acc, _ => by simp [splitColonAux]
  | c :: rest, l2, acc, h => by
    simp only [List.mem_cons, not_or] at h
    rw [List.cons_append, splitColonAux, if_neg (fun hc => h.1 hc.symm),
      splitColonAux_colon rest l2 (c :: acc) h.2]
    simp

/-- Splitting `ns ++ ":" ++ foo` on the first colon recovers `(ns, foo)`
when `ns` itself is colon-free. -/
theorem pySplitColon_append (ns foo : String) (h : ':' ∉ ns.data) :
    pySplitColon (ns ++ ":" ++ foo) = (ns, some foo) := by
  obtain ⟨lns⟩ := ns
  obtain ⟨lfoo⟩ := foo
  show splitColonAux (lns ++ [':'] ++ lfoo) [] = _
  rw [List.append_assoc, List.singleton_append, splitColonAux_colon lns lfoo [] h]
  simp

theorem lookupHandlersE_mk (reg : List ((String × Option String) × List IntentHandler))
    (name : String) :
    lookupHandlersE reg (.obj [("intentName", .str name), ("probability", .num 1)]) =
    .ok (intentLookup reg name) := rfl

/-! ### Claims -/
/-- C5: an inbound intent name `ns:foo` with nothing registered under the
key `(foo, ns)` falls back to the key `(foo, None)` and routes to its
handlers when registered; when neither key is registered the event is
dropped with no error (the listener state, publish list and escaping
exception are all unchanged / empty). -/
theorem c5_namespace_fallback
    (reg : List ((String × Option String) × List IntentHandler))
    (ns foo : String) (hns : ':' ∉ ns.data)
    (hmiss : lookupA reg (foo, some ns) = none) :
    (∀ hs, lookupA reg (foo, none) = some hs →
      intentLookup reg (ns ++ ":" ++ foo) = some hs) ∧
    (lookupA reg (foo, none) = none →
      ∀ (st : ListenerState) (sid site input : String),
        st.intent_handlers = reg →
        lookupA st.suspended sid = none →
        handleIntent st (mkIntentMsg sid site (ns ++ ":" ++ foo) input) = ⟨st, [], none⟩) := by
  have hsplit : intentLookup reg (ns ++ ":" ++ foo) =
      lookupA reg (foo, none) := by
    rw [intentLookup, pySplitColon_append ns foo hns]
    simp [hmiss]
  refine ⟨fun hs hfb => by rw [hsplit, hfb], fun hnone st sid site input hreg hsusp => ?_⟩
  rw [handleIntent, decodeIntentTop_mk]
  simp only [hsusp, hreg, lookupHandlersE_mk, hsplit, hnone]

/-- C5 witness: with only `(foo, None)` registered, the name `ns:foo`
resolves to its handler list. -/
theorem c5_namespace_fallback_witness :
    intentLookup [(("foo", none), [])] ("ns" ++ ":" ++ "foo") = some [] :=
  (c5_namespace_fallback [(("foo", none), [])] "ns" "foo" (by decide) rfl).1 [] rfl

/-- C8: every Gateway action on an already-ended session manager
publishes nothing and leaves the manager unchanged; any two actions in
sequence after `ended = true` produce no publish at all; and
`end_session` always leaves `ended` set, so the guard persists after the
first end-session publish. -/
theorem c8_gateway_ended_noop (sm : SMState) (h : sm.ended = true) :
    (∀ a : SMAction, smAct sm a = (sm, [])) ∧
    (∀ a b : SMAction,
      (smAct sm a).2 ++ (smAct (smAct sm a).1 b).2 = ([] : List Pub)) ∧
    (∀ (sm' : SMState) (t : Option String), ((sm'.end_session t).1).ended = true) := by
  have key : ∀ a : SMAction, smAct sm a = (sm, []) := by
    intro a
    cases a <;>
      simp [smAct, SMState.continue_session, SMState.say, SMState.end_session, h]
  refine ⟨key, fun a b => ?_, fun sm' t => ?_⟩
  · rw [key a]
    simp [key b]
  · by_cases h' : sm'.ended <;> simp [SMState.end_session, h']

/-- C8 witness: a concrete ended manager drops a say and a continue. -/
theorem c8_gateway_ended_noop_witness :
    smAct ⟨"s1", "site", true⟩ (.sayText "hello") = (⟨"s1", "site", true⟩, []) ∧
    (smAct ⟨"s1", "site", true⟩ (.sayText "hello")).2 ++
      (smAct (smAct ⟨"s1", "site", true⟩ (.sayText "hello")).1
        (.contSess "more" none)).2 = ([] : List Pub) :=
  ⟨(c8_gateway_ended_noop ⟨"s1", "site", true⟩ rfl).1 (.sayText "hello"),
   (c8_gateway_ended_noop ⟨"s1", "site", true⟩ rfl).2.1 (.sayText "hello")
     (.contSess "more" none)⟩

/-- C10: calling `continue_session` with an empty filter list on a
non-ended manager produces exactly the publish produced with no filter
argument at all, and its payload has no `intentFilter` key (`if
intent_filters:` is false for the empty list). -/
theorem c10_empty_filters_like_none (sm : SMState) (t : String) (h : sm.ended = false) :
    sm.continue_session t (some []) = sm.continue_session t none ∧
    ∀ p ∈ (sm.continue_session t (some [])).2,
      p.payload.hasKey "intentFilter" = false := by
  refine ⟨rfl, fun p hp => ?_⟩
  simp only [SMState.continue_session, h, Bool.false_eq_true, if_false,
    truthyList, List.append_nil, List.mem_singleton] at hp
  subst hp
  rfl

/-- C10 witness: concrete manager, the two calls coincide and the payload
carries no `intentFilter` key. -/
theorem c10_empty_filters_like_none_witness :
    SMState.continue_session ⟨"s1", "site", false⟩ "hi" (some []) =
      SMState.continue_session ⟨"s1", "site", false⟩ "hi" none ∧
    ∀ p ∈ (SMState.continue_session ⟨"s1", "site", false⟩ "hi" (some [])).2,
      p.payload.hasKey "intentFilter" = false :=
  c10_empty_filters_like_none ⟨"s1", "site", false⟩ "hi" rfl

theorem insertA_of_lookupA_eq [DecidableEq κ] {l : List (κ × α)} {k : κ} {v : α}
    (h : lookupA l k = some v) : insertA l k v = l := by
  induction l with
  | nil => simp [lookupA] at h
  | cons hd tl ih =>
    obtain ⟨k0, v0⟩ := hd
    by_cases hk : k = k0
    · subst hk
      rw [lookupA_cons, if_pos rfl] at h
      cases Option.some.inj h
      simp [insertA]
    · rw [lookupA_cons, if_neg hk] at h
      simp [insertA, hk, ih h]

/-- C3: an IntentDetected for a session id with a suspended entry is
delivered as the resume input of the retained computation; when the
resumed step yields a pair `(t2, f1 :: fr)` the engine publishes exactly
one continue-session message `{sessionId, text, intentFilter}` and the
session stays suspended (the advanced continuation is retained).  The
hypotheses never mention `st.intent_handlers` and the conclusion fixes
every observable independently of it, so Registry lookup is skipped
entirely on this path. -/
theorem c3_resume_path (st : ListenerState) (sid site name input t2 f1 : String)
    (fr : List String) (gen k : GenObj) (siteM : String)
    (hsusp : lookupA st.suspended sid = some gen)
    (hmgr : lookupA st.managers sid = some ⟨sid, siteM, false⟩)
    (hstep : gen.step (.intentE (mkIntentObj sid site name input)) =
      .yields (.pair t2 (f1 :: fr)) k) :
    handleIntent st (mkIntentMsg sid site name input) =
      ⟨{ st with suspended := insertA st.suspended sid k },
       [⟨"hermes/dialogueManager/continueSession",
         .obj [("sessionId", .str sid), ("text", .str t2),
           ("intentFilter", .arr ((f1 :: fr).map .str))]⟩], none⟩ := by
  rw [handleIntent.eq_def, decodeIntentTop_mk]
  simp only [hsusp, ensureManager, hmgr, decodeIntentObj_mk]
  rw [doGeneratorTurn.eq_def]
  simp only [hstep, applySMOp, lookupA_insertA_ne, hmgr,
    SMState.continue_session, truthyList]
  simp [insertA_of_lookupA_eq hmgr]

/-- C3 witness: a concrete suspended session resumes with a filtered pair. -/
theorem c3_resume_path_witness :
    handleIntent
      ⟨[], [], [], [("s", .mk (fun _ => .yields (.pair "T2" ["F1", "F2"])
          (.mk (fun _ => .stops none))))],
        [("s", ⟨"s", "site", false⟩)]⟩
      (mkIntentMsg "s" "site" "anyname" "hello") =
      ⟨{ (⟨[], [], [], [("s", .mk (fun _ => .yields (.pair "T2" ["F1", "F2"])
            (.mk (fun _ => .stops none))))],
          [("s", ⟨"s", "site", false⟩)]⟩ : ListenerState) with
          suspended := insertA [("s", GenObj.mk (fun _ => .yields
            (.pair "T2" ["F1", "F2"]) (.mk (fun _ => .stops none))))] "s"
            (.mk (fun _ => .stops none)) },
       [⟨"hermes/dialogueManager/continueSession",
         .obj [("sessionId", .str "s"), ("text", .str "T2"),
           ("intentFilter", .arr (["F1", "F2"].map .str))]⟩], none⟩ :=
  c3_resume_path _ "s" "site" "anyname" "hello" "T2" "F1" ["F2"]
    _ _ "site" rfl rfl rfl

/-- Publishes of the session-ended handler loop: each stored handler is
invoked exactly once, in the stored (set-iteration) order. -/
theorem mkSEEv_session_id (sid site reason : String) :
    (mkSEEv sid site reason).session_id = sid := rfl

theorem runSEHandlers_eq_join (ev : SessionEnded) (l : List SEHandler) :
    runSEHandlers ev l = (l.map (fun h => (h ev).1)).flatten := by
  induction l with
  | nil => rfl
  | cons h rest ih => simp [runSEHandlers, ih]

/-- C7: processing a well-formed SessionEnded message removes the
session's suspended entry when present — the event is first sent into
the retained generator, every outcome including a raised error being
caught and discarded — runs every registered session-end handler with the
decoded event, and removes the session's manager entry when present;
nothing escapes (`err = none`), and when the id has no entries the maps
are returned unchanged (pure no-op). -/
theorem c7_session_ended_cleanup (st : ListenerState) (sid site reason : String) :
    handleSessionEnded st (mkSEMsg sid site reason) =
      ⟨⟨st.intent_handlers, st.hotword_handlers, st.session_ended_handlers,
        eraseA st.suspended sid, eraseA st.managers sid⟩,
       ((st.session_ended_handlers.map
          (fun h => (h (mkSEEv sid site reason)).1)).flatten), none⟩ ∧
    (lookupA st.suspended sid = none → eraseA st.suspended sid = st.suspended) ∧
    (lookupA st.managers sid = none → eraseA st.managers sid = st.managers) := by
  refine ⟨?_, fun h => eraseA_of_lookupA_none _ _ h,
    fun h => eraseA_of_lookupA_none _ _ h⟩
  simp only [handleSessionEnded, decodeSessionEnded_mk, mkSEEv_session_id,
    runSEHandlers_eq_join]
  cases h : lookupA st.suspended sid with
  | none =>
    simp only [h]
    rw [eraseA_of_lookupA_none _ _ h]
  | some g => simp only [h]

/-- C7 witness: a session with both a suspension (whose generator raises
on the delivered event) and a manager entry is fully cleaned up, the
registered handler still runs, and no exception escapes. -/
theorem c7_session_ended_cleanup_witness :
    handleSessionEnded
      ⟨[], [], [fun _ => ([⟨"t", .null⟩], some (.exc "handler boom"))],
        [("s", .mk (fun _ => .raises (.exc "gen boom")))],
        [("s", ⟨"s", "site", false⟩)]⟩
      (mkSEMsg "s" "site" "abortedByUser") =
      ⟨⟨[], [], [fun _ => ([⟨"t", .null⟩], some (.exc "handler boom"))], [], []⟩,
       [⟨"t", .null⟩], none⟩ := by
  have h := (c7_session_ended_cleanup
    ⟨[], [], [fun _ => ([⟨"t", .null⟩], some (.exc "handler boom"))],
      [("s", .mk (fun _ => .raises (.exc "gen boom")))],
      [("s", ⟨"s", "site", false⟩)]⟩ "s" "site" "abortedByUser").1
  simpa [eraseA] using h

/-- C9 counterexample: `_session_ended_handlers` is a `set` (line 116),
so the stored iteration order is an arbitrary permutation of registration
order.  With handlers registered in the order `[seMark "A", seMark "B"]`,
the iteration order `[seMark "B", seMark "A"]` is valid for the set, and
processing a SessionEnded then invokes the handlers in the order B, A —
not registration order.  Hence "invoked in registration order" is false. -/
theorem c9_counterexample :
    ValidSetOrder [seMark "A", seMark "B"] [seMark "B", seMark "A"] ∧
    (handleSessionEnded ⟨[], [], [seMark "B", seMark "A"], [], []⟩
        (mkSEMsg "s" "site" "nominal")).pubs =
      [⟨"B", .null⟩, ⟨"A", .null⟩] ∧
    ([⟨"B", .null⟩, ⟨"A", .null⟩] : List Pub) ≠ [⟨"A", .null⟩, ⟨"B", .null⟩] := by
  refine ⟨List.Perm.swap _ _ _, rfl, fun h => ?_⟩
  have h1 : ("B" : String) = "A" := congrArg (fun l => (l.headD ⟨"", .null⟩).topic) h
  exact absurd h1 (by decide)

/-- C9 amended: when a SessionEnded event is processed, every stored
session-end handler is invoked exactly once with the event, in the stored
set's iteration order; since the set is unordered, that order is an
arbitrary permutation of registration order, so only the multiset of
handler invocations (not their sequence) is determined by registration —
any two valid iteration orders produce permuted publish sequences. -/
theorem c9_amended (st : ListenerState) (sid site reason : String) :
    (handleSessionEnded st (mkSEMsg sid site reason)).pubs =
      (st.session_ended_handlers.map
        (fun h => (h (mkSEEv sid site reason)).1)).flatten ∧
    (∀ iter iter' : List SEHandler, ValidSetOrder iter iter' →
      (runSEHandlers (mkSEEv sid site reason) iter').Perm
        (runSEHandlers (mkSEEv sid site reason) iter)) := by
  constructor
  · simp only [handleSessionEnded, decodeSessionEnded_mk, mkSEEv_session_id,
      runSEHandlers_eq_join]
  · intro iter iter' hperm
    rw [runSEHandlers_eq_join, runSEHandlers_eq_join]
    exact (hperm.map _).flatten

/-- C9 amended witness: concrete two-handler state, with the reversed
iteration order producing a permutation of the registration-order run. -/
theorem c9_amended_witness :
    (handleSessionEnded ⟨[], [], [seMark "A", seMark "B"], [], []⟩
        (mkSEMsg "s" "site" "nominal")).pubs =
      ([(seMark "A") (mkSEEv "s" "site" "nominal"),
        (seMark "B") (mkSEEv "s" "site" "nominal")].map Prod.fst).flatten ∧
    (runSEHandlers (mkSEEv "s" "site" "nominal") [seMark "B", seMark "A"]).Perm
      (runSEHandlers (mkSEEv "s" "site" "nominal") [seMark "A", seMark "B"]) :=
  ⟨(c9_amended ⟨[], [], [seMark "A", seMark "B"], [], []⟩ "s" "site" "nominal").1,
   (c9_amended ⟨[], [], [seMark "A", seMark "B"], [], []⟩ "s" "site" "nominal").2
     [seMark "A", seMark "B"] [seMark "B", seMark "A"] (List.Perm.swap _ _ _)⟩

/-- C2 counterexample: when the suspended computation completes, the code
publishes the end-session message and removes the suspension, but it does
NOT remove the Gateway (session-manager) entry: `_do_generator_turn` only
deletes `_suspended_sessions[session_id]`; `_session_managers` keeps the
entry (now flagged ended) until a SessionEnded message arrives — exactly
as `test_multiturn_generator` asserts (`len(skill._session_managers) == 1`
after completion).  So "zero Gateway entries for that session id
afterward" is false. -/
theorem c2_counterexample :
    (handleIntent c2state (mkIntentMsg "s" "site" "anyintent" "hello")).pubs =
      [⟨"hermes/dialogueManager/endSession",
        .obj [("sessionId", .str "s"), ("text", .str "bye")]⟩] ∧
    (handleIntent c2state (mkIntentMsg "s" "site" "anyintent" "hello")).st.suspended = [] ∧
    lookupA (handleIntent c2state
      (mkIntentMsg "s" "site" "anyintent" "hello")).st.managers "s" ≠ none := by
  refine ⟨rfl, rfl, fun h => ?_⟩
  have h1 : lookupA (handleIntent c2state
      (mkIntentMsg "s" "site" "anyintent" "hello")).st.managers "s" =
      some ⟨"s", "site", true⟩ := rfl
  rw [h1] at h
  exact Option.noConfusion h

/-- C2 amended: when a suspended session's computation completes with
final value `v` on an IntentDetected, the engine publishes one
end-session message `{sessionId, text?}` (the text key present exactly
when `v` is truthy, i.e. omitted when `v` is absent or empty), and
afterwards the Session Store has zero suspended entries for that id but
STILL HOLDS the Gateway entry, now with `ended = true`; the Gateway entry
is only removed by a later SessionEnded message. -/
theorem c2_amended (st : ListenerState) (sid site name input siteM : String)
    (gen : GenObj) (v : Option String)
    (hsusp : lookupA st.suspended sid = some gen)
    (hmgr : lookupA st.managers sid = some ⟨sid, siteM, false⟩)
    (hstep : gen.step (.intentE (mkIntentObj sid site name input)) = .stops v) :
    handleIntent st (mkIntentMsg sid site name input) =
      ⟨⟨st.intent_handlers, st.hotword_handlers, st.session_ended_handlers,
        eraseA st.suspended sid,
        insertA st.managers sid ⟨sid, siteM, true⟩⟩,
       [⟨"hermes/dialogueManager/endSession",
         .obj ([("sessionId", .str sid)] ++
           (if truthyStr v then [("text", .str (v.getD ""))] else []))⟩], none⟩ ∧
    lookupA (insertA st.managers sid ⟨sid, siteM, true⟩) sid =
      some ⟨sid, siteM, true⟩ := by
  refine ⟨?_, lookupA_insertA_self _ _ _⟩
  rw [handleIntent.eq_def, decodeIntentTop_mk]
  simp only [hsusp, ensureManager, hmgr, decodeIntentObj_mk]
  rw [doGeneratorTurn.eq_def]
  simp only [hstep, applySMOp, lookupA_eraseA_ne, hmgr, SMState.end_session]
  cases hv : truthyStr v with
  | false =>
    simp only [hv, Bool.false_eq_true, if_false, truthyStr]
  | true =>
    cases v with
    | none => simp [truthyStr] at hv
    | some t =>
      simp only [hv, if_true, Option.getD_some]
      rfl

/-- C2 amended witness: the concrete completing session publishes the
final text and keeps its (now ended) manager entry. -/
theorem c2_amended_witness :
    handleIntent c2state (mkIntentMsg "s" "site" "anyintent" "hello") =
      ⟨⟨[], [], [], eraseA [("s", finishingGen)] "s",
        insertA [("s", (⟨"s", "site", false⟩ : SMState))] "s" ⟨"s", "site", true⟩⟩,
       [⟨"hermes/dialogueManager/endSession",
         .obj ([("sessionId", .str "s")] ++
           (if truthyStr (some "bye") then [("text", .str ((some "bye").getD ""))]
            else []))⟩], none⟩ :=
  (c2_amended c2state "s" "site" "anyintent" "hello" "site"
    finishingGen (some "bye") rfl rfl rfl).1

/-- C4 counterexample: with two suspending resumable handlers registered
in order A, B, both are invoked (each publishes its continue-session
message), but `self._suspended_sessions[session_id] = gen_obj` (lines
258/261) runs once per suspending generator, so the later handler
OVERWRITES the earlier one's entry: the retained suspension is B's
continuation, not A's — "the first resumable handler in registration
order" is false. -/
theorem c4_counterexample :
    (handleIntent c4state (mkIntentMsg "s" "site" "multi" "hi")).pubs =
      [⟨"hermes/dialogueManager/continueSession",
        .obj [("sessionId", .str "s"), ("text", .str "A1")]⟩,
       ⟨"hermes/dialogueManager/continueSession",
        .obj [("sessionId", .str "s"), ("text", .str "B1")]⟩] ∧
    lookupA (handleIntent c4state (mkIntentMsg "s" "site" "multi" "hi")).st.suspended "s" =
      some contB ∧
    lookupA (handleIntent c4state (mkIntentMsg "s" "site" "multi" "hi")).st.suspended "s" ≠
      some contA := by
  refine ⟨rfl, rfl, fun h => ?_⟩
  have hBA : contB = contA := by
    have h1 : lookupA (handleIntent c4state
        (mkIntentMsg "s" "site" "multi" "hi")).st.suspended "s" = some contB := rfl
    rw [h1] at h
    exact Option.some.inj h
  have h2 : GenObj.step contB .start = GenObj.step contA .start := by rw [hBA]
  have h3 : GenOutcome.yields (.text "B2") (.mk (fun _ => .stops none)) =
      GenOutcome.yields (.text "A2") (.mk (fun _ => .stops none)) := h2
  injection h3 with ht _
  injection ht with hs
  exact absurd hs (by decide)

theorem applySMOp_suspended (st : ListenerState) (sid : String)
    (op : SMState → SMState × List Pub) :
    (applySMOp st sid op).1.suspended = st.suspended := by
  rw [applySMOp]
  cases lookupA st.managers sid <;> rfl

theorem runActs_suspended (sid : String) :
    ∀ (st : ListenerState) (acts : List SMAction),
      (runActs sid st acts).1.suspended = st.suspended
  | _, [] => rfl
  | st, a :: rest => by
    rw [runActs]
    rw [runActs_suspended sid _ rest, applySMOp_suspended]

/-- C4 amended: when several handlers match a new session, every matching
handler is invoked in registration order, but the suspension retained for
the session id is the one produced by the LAST generator-function handler
in registration order (each suspending generator overwrites the stored
entry), provided each generator handler's first step yields a valid turn;
when the list contains no generator handler the suspension map entry is
untouched. -/
theorem c4_amended (sid : String) (iobj : IntentDetected) :
    ∀ (hs : List IntentHandler) (st : ListenerState),
      (∀ g, IntentHandler.genFn g ∈ hs → (startCont g iobj).isSome) →
      lookupA (runIntentHandlers sid iobj st hs).1.suspended sid =
        (match lastGenFn hs with
         | some g => startCont g iobj
         | none => lookupA st.suspended sid)
  | [], st, _ => rfl
  | .plain f :: rest, st, hvalid => by
    rw [runIntentHandlers,
      c4_amended sid iobj rest _ (fun g hg => hvalid g (List.mem_cons_of_mem _ hg))]
    rw [lastGenFn]
    cases lastGenFn rest with
    | some g => rfl
    | none => simp only [runActs_suspended]
  | .genFn g :: rest, st, hvalid => by
    have hg : (startCont g iobj).isSome :=
      hvalid g (List.mem_cons_self _ _)
    rw [runIntentHandlers,
      c4_amended sid iobj rest _ (fun g' hg' => hvalid g' (List.mem_cons_of_mem _ hg')),
      lastGenFn]
    cases hlast : lastGenFn rest with
    | some g' => rfl
    | none =>
      rw [doGeneratorTurn.eq_def]
      cases hstep : (g iobj).step .start with
      | stops v => simp [startCont, yieldCont, hstep] at hg
      | raises e => simp [startCont, yieldCont, hstep] at hg
      | yields turn k =>
        cases turn with
        | text s =>
          simp only [startCont, yieldCont, hstep, applySMOp_suspended,
            lookupA_insertA_self]
        | pair t fs =>
          simp only [startCont, yieldCont, hstep, applySMOp_suspended,
            lookupA_insertA_self]
        | invalidSized => simp [startCont, yieldCont, hstep] at hg
        | invalidUnsized => simp [startCont, yieldCont, hstep] at hg

/-- C4 amended witness: in the concrete two-generator state, the retained
suspension is handler B's continuation (the last in registration order). -/
theorem c4_amended_witness :
    lookupA (runIntentHandlers "s" (mkIntentObj "s" "site" "multi" "hi")
        c4state [.genFn genFnA, .genFn genFnB]).1.suspended "s" =
      (match lastGenFn [.genFn genFnA, .genFn genFnB] with
       | some g => startCont g (mkIntentObj "s" "site" "multi" "hi")
       | none => lookupA c4state.suspended "s") := by
  refine c4_amended "s" (mkIntentObj "s" "site" "multi" "hi")
    [.genFn genFnA, .genFn genFnB] c4state (fun g hg => ?_)
  rcases List.mem_cons.mp hg with h | h
  · injection h with h1
    subst h1
    rfl
  · rcases List.mem_cons.mp h with h2 | h2
    · injection h2 with h3
      subst h3
      rfl
    · exact absurd h2 (List.not_mem_nil _)

/-! ### C1: decode failures escape the callbacks -/
/-- C1 counterexample: a malformed (non-JSON) payload makes `json.loads`
(line 165) raise, and `_handle_intent` has no enclosing try, so the
exception escapes the callback — contradicting "no exception escapes
_handle_intent". -/
theorem c1_counterexample :
    (handleIntent ⟨[], [], [], [], []⟩ ⟨"hermes/intent/foo", none⟩).err ≠ none := by
  intro h
  have h1 : (handleIntent ⟨[], [], [], [], []⟩ ⟨"hermes/intent/foo", none⟩).err =
      some .jsonDecode := rfl
  rw [h1] at h
  exact Option.noConfusion h

/-- C1 amended: the dispatcher performs no decode-error containment — a
malformed JSON payload raises out of `_handle_intent` and
`_handle_session_ended`, and a hotword topic without the fixed 4-segment
shape raises `ValueError` out of `_handle_hotword_detected`; what IS
contained is handler-level failure: for a well-formed hotword message,
whatever the payload object and whatever the registered handlers raise,
no exception escapes (missing `modelId`/`siteId` fields are caught inside
the per-handler try, as are handler errors). -/
theorem c1_amended (st : ListenerState) (topic : String) :
    (handleIntent st ⟨topic, none⟩).err = some .jsonDecode ∧
    (handleSessionEnded st ⟨topic, none⟩).err = some .jsonDecode ∧
    (∀ p : Option Jv, (pySplitSlash topic).length ≠ 4 →
      (handleHotword st ⟨topic, p⟩).err = some .valueError) ∧
    (∀ data : Jv,
      (handleHotword st ⟨"hermes/hotword/hw/detected", some data⟩).err = none) := by
  refine ⟨rfl, rfl, fun p hlen => ?_, fun data => rfl⟩
  simp only [handleHotword]
  generalize hsp : pySplitSlash topic = l at hlen ⊢
  rcases l with _ | ⟨a, _ | ⟨b, _ | ⟨c, _ | ⟨d, _ | ⟨e, rest⟩⟩⟩⟩⟩
  · rfl
  · rfl
  · rfl
  · rfl
  · exact absurd rfl hlen
  · rfl

/-- C1 amended witness: a 3-segment hotword topic raises `ValueError`; a
well-formed hotword message never lets an exception escape. -/
theorem c1_amended_witness :
    (handleHotword ⟨[], [], [], [], []⟩
      ⟨"hermes/hotword/detected", some (.obj [])⟩).err = some .valueError ∧
    (handleHotword ⟨[], [], [], [], []⟩
      ⟨"hermes/hotword/hw/detected", some (.obj [])⟩).err = none :=
  ⟨(c1_amended ⟨[], [], [], [], []⟩ "hermes/hotword/detected").2.2.1
      (some (.obj [])) (by decide),
   (c1_amended ⟨[], [], [], [], []⟩ "x").2.2.2 (.obj [])⟩

/-- C6 counterexample: the resume-path call to `_do_generator_turn`
(line 228) is outside any try, and inside `_do_generator_turn` only
`StopIteration` is caught, so an error raised by a suspended computation
on resumption escapes `_handle_intent` — contradicting "caught at the
call site ... does not propagate out of the dispatch engine". -/
theorem c6_counterexample :
    (handleIntent c6state (mkIntentMsg "s" "site" "foo" "hi")).err =
      some (.exc "boom") ∧
    some (PyErr.exc "boom") ≠ (none : Option PyErr) :=
  ⟨rfl, fun h => Option.noConfusion h⟩

/-- C6 amended: errors raised by handler code during INITIAL invocation
for a new session are caught per handler and do not escape (whatever the
resolved handler list does, `_handle_intent` returns without an escaping
exception); but an error raised by a suspended computation when it is
resumed with a later IntentDetected is NOT caught — it propagates out of
the dispatch engine. -/
theorem c6_amended (st : ListenerState) (sid site name input : String) :
    (∀ hs, lookupA st.suspended sid = none →
      intentLookup st.intent_handlers name = some hs →
      (handleIntent st (mkIntentMsg sid site name input)).err = none) ∧
    (∀ (gen : GenObj) (e : PyErr), lookupA st.suspended sid = some gen →
      gen.step (.intentE (mkIntentObj sid site name input)) = .raises e →
      (handleIntent st (mkIntentMsg sid site name input)).err = some e) := by
  constructor
  · intro hs hsusp hreg
    rw [handleIntent.eq_def, decodeIntentTop_mk]
    simp only [hsusp, lookupHandlersE_mk, hreg, decodeIntentObj_mk]
  · intro gen e hsusp hstep
    rw [handleIntent.eq_def, decodeIntentTop_mk]
    simp only [hsusp, decodeIntentObj_mk]
    rw [doGeneratorTurn.eq_def]
    simp only [hstep]

/-- C6 amended witness: a new-session handler that raises is contained,
while the same error raised on resumption escapes. -/
theorem c6_amended_witness :
    (handleIntent
      ⟨[(("foo", none), [.plain (fun _ => ([], some (.exc "boom")))])],
        [], [], [], []⟩
      (mkIntentMsg "s" "site" "foo" "hi")).err = none ∧
    (handleIntent c6state (mkIntentMsg "s" "site" "foo" "hi")).err =
      some (.exc "boom") :=
  ⟨(c6_amended
      ⟨[(("foo", none), [.plain (fun _ => ([], some (.exc "boom")))])],
        [], [], [], []⟩ "s" "site" "foo" "hi").1
      [.plain (fun _ => ([], some (.exc "boom")))] rfl rfl,
   (c6_amended c6state "s" "site" "foo" "hi").2 raisingGen (.exc "boom") rfl rfl⟩

end SnipsListener

